import Mathlib

/-!
Shallow embedding of the authentication core of the contacts-directory
backend (FastAPI application): the signed-token codec and credential
hasher (`src/services/auth.py`, absent from the provided sources and
therefore modelled from the specification), the user repository
(`src/repository/users.py`), the email token issuance sites
(`src/services/email.py`) and the auth routes (`src/routes/auth.py`).

Machine state is the list of persisted `User` rows; every route is a
function from its inputs, the current time and the database to a result
paired with the successor database.  Unhandled Python exceptions that
FastAPI converts to an HTTP 500 response (attribute errors on `None`,
and exceptions re-raised by a route's blanket `except Exception`
handler) are modelled by the `Err.internalError` outcome.
-/

set_option autoImplicit false

/-- Modelled from the spec: the `purpose` discriminator of a token's
claims.  The source exposes exactly three issuance functions
(`create_access_token`, `create_refresh_token`, `create_email_token`),
so the codec carries three purposes; both the email-confirmation and
the password-reset mails obtain their token from `create_email_token`
(see `send_verification_token` / `send_reset_token` below). -/
inductive Purpose where
  | access
  | refresh
  | email
  deriving DecidableEq, Repr

/-- Modelled from the spec: the claims bundle of a signed token —
`subject` (the user's email), `issued_at`, `expires_at` and the
`purpose` discriminator. -/
structure Claims where
  sub : String
  purpose : Purpose
  issued_at : Nat
  expires_at : Nat
  deriving DecidableEq, Repr

/-- Modelled from the spec: an abstract presented token string.  A
string determines whether the signature verifies (`sigOk`) and whether
the payload structurally decodes to a claims bundle (`body`); issuance
is deterministic, so equality of `TokenStr` values models byte-for-byte
equality of the underlying strings. -/
structure TokenStr where
  body : Option Claims
  sigOk : Bool
  deriving DecidableEq, Repr

/-- Modelled from the spec: distinguishable codec failures, in the
validation order signature, structure, expiry, purpose. -/
inductive ParseError where
  | InvalidSignature
  | Malformed
  | Expired
  | WrongPurpose
  deriving DecidableEq, Repr

namespace AuthService

/-- Modelled from the spec: access tokens are short-lived (minutes);
the concrete value is a configuration concern. -/
def ACCESS_TOKEN_TTL : Nat := 15 * 60

/-- Modelled from the spec: refresh tokens are long-lived (days). -/
def REFRESH_TOKEN_TTL : Nat := 7 * 24 * 3600

/-- Modelled from the spec: confirmation/reset tokens are medium-lived
(hours). -/
def EMAIL_TOKEN_TTL : Nat := 24 * 3600

/-- Modelled from the spec: salted one-way hashing.  The digest is
abstract; all the claims need is that `verify_password` recomputes and
compares, so hashing is modelled as an injective tagging of the
plaintext (the real digest is irreversible, which no claim relies on). -/
def get_password_hash (plaintext : String) : String :=
  "bcrypt$" ++ plaintext

/-- Modelled from the spec: `verify(plaintext, digest)` recomputes and
compares; a malformed digest yields `false`, not a crash. -/
def verify_password (plaintext digest : String) : Bool :=
  digest == get_password_hash plaintext

/-- Modelled from the spec: `issue(claims, ttl, secret)` serialises and
signs a claims bundle; the result always carries a valid signature and
a decodable body. -/
def issue (sub : String) (purpose : Purpose) (now ttl : Nat) : TokenStr :=
  { body := some { sub := sub, purpose := purpose, issued_at := now,
                   expires_at := now + ttl },
    sigOk := true }

/-- Modelled from the spec: access-token issuance with subject claim
`sub` (the caller passes `data={"sub": user.email}`). -/
def create_access_token (sub : String) (now : Nat) : TokenStr :=
  issue sub .access now ACCESS_TOKEN_TTL

/-- Modelled from the spec: refresh-token issuance. -/
def create_refresh_token (sub : String) (now : Nat) : TokenStr :=
  issue sub .refresh now REFRESH_TOKEN_TTL

/-- Modelled from the spec: issuance of the purpose-tagged token mailed
for email confirmation and for password reset — the source has a single
such function, used by both mails. -/
def create_email_token (sub : String) (now : Nat) : TokenStr :=
  issue sub .email now EMAIL_TOKEN_TTL

/-- Modelled from the spec: `parse(token, secret)` validates in the
order (1) signature — `InvalidSignature`; (2) structural decode —
`Malformed`; (3) expiry against the current time — `Expired`;
(4) purpose against the caller's expected purpose — `WrongPurpose`. -/
def parse (t : TokenStr) (expected : Purpose) (now : Nat) :
    Except ParseError Claims :=
  if t.sigOk = false then .error .InvalidSignature
  else
    match t.body with
    | none => .error .Malformed
    | some c =>
      if c.expires_at ≤ now then .error .Expired
      else if c.purpose ≠ expected then .error .WrongPurpose
      else .ok c

/-- Modelled from the spec: `decode_refresh_token` parses a presented
token expecting purpose `refresh` and re-derives the subject email. -/
def decode_refresh_token (t : TokenStr) (now : Nat) :
    Except ParseError String :=
  (parse t .refresh now).map Claims.sub

end AuthService

/-- A persisted `users` row (`src/database/models.py`): `id`,
`username`, `email` (unique), `password` (the stored hash), `avatar`,
`created_at`, `refresh_token` (nullable), `confirmed` (default
`False`). -/
structure User where
  id : Nat
  username : String
  email : String
  password : String
  avatar : Option String
  created_at : Nat
  refresh_token : Option TokenStr
  confirmed : Bool
  deriving DecidableEq, Repr

/-- The database: the list of persisted users, in insertion order. -/
abbrev DB := List User

/-- The `UserModel` request schema (`src/schemas.py`). -/
structure UserModel where
  username : String
  email : String
  password : String
  deriving DecidableEq, Repr

/-- The external Gravatar lookup performed by `create_user`
(`src/repository/users.py`); an out-of-scope collaborator, modelled as
unavailable (`avatar = None`), which the source tolerates. -/
def gravatar (_email : String) : Option String := none

namespace Repository

/-- `get_user_by_email` (`src/repository/users.py` line 18): the first
row whose `email` column equals the argument, or `None`. -/
def get_user_by_email (email : String) (db : DB) : Option User :=
  db.find? fun u => u.email == email

/-- `create_user` (`src/repository/users.py` lines 33-43): builds a row
from the request body (whose `password` field the route has already
replaced by the hash) with the Gravatar avatar, column defaults
`confirmed = False` and `refresh_token = NULL`, the next autoincrement
id and the `func.now()` creation timestamp, and appends it. -/
def create_user (body : UserModel) (now : Nat) (db : DB) : User × DB :=
  let nu : User :=
    { id := db.length + 1, username := body.username, email := body.email,
      password := body.password, avatar := gravatar body.email,
      created_at := now, refresh_token := none, confirmed := false }
  (nu, db ++ [nu])

/-- The ORM mutates the row previously fetched by email and commits;
modelled as an update keyed by that (unique) email. -/
def updateUser (email : String) (f : User → User) (db : DB) : DB :=
  db.map fun u => if u.email == email then f u else u

/-- `update_token` (`src/repository/users.py` lines 56-57): overwrite
the user's `refresh_token` column with the given value (or `NULL`). -/
def update_token (email : String) (tok : Option TokenStr) (db : DB) : DB :=
  updateUser email (fun u => { u with refresh_token := tok }) db

/-- `confirmed_email` (`src/repository/users.py` lines 87-89): set the
`confirmed` flag of the user with that email to `True`. -/
def confirmed_email (email : String) (db : DB) : DB :=
  updateUser email (fun u => { u with confirmed := true }) db

/-- `update_password` (`src/repository/users.py` lines 104-106): set
the user's `password` column to the given hash. -/
def update_password (email : String) (hashed : String) (db : DB) : DB :=
  updateUser email (fun u => { u with password := hashed }) db

end Repository

/-- `send_verification_email` (`src/services/email.py` line 40): the
token the confirmation mail carries is
`auth_service.create_email_token({"sub": email})`. -/
def send_verification_token (email : String) (now : Nat) : TokenStr :=
  AuthService.create_email_token email now

/-- `send_reset_email` (`src/services/email.py` line 69): the token the
password-reset mail carries is likewise
`auth_service.create_email_token({"sub": email})`. -/
def send_reset_token (email : String) (now : Nat) : TokenStr :=
  AuthService.create_email_token email now

/-- User-visible terminal outcomes of the auth routes
(`src/routes/auth.py`): each HTTPException raised by a route, plus
`internalError` for unhandled exceptions / blanket `except Exception`
re-raises that surface as HTTP 500. -/
inductive Err where
  /-- 409 "Account already exists" -/
  | duplicateEmail
  /-- 401 "Invalid email" -/
  | unknownUser
  /-- 401 "Email not confirmed" -/
  | emailNotConfirmed
  /-- 401 "Invalid password" -/
  | badPassword
  /-- 401 "Invalid refresh token" (and the codec's own 401s on a
  refresh-token parse failure) -/
  | invalidRefreshToken
  /-- 400 "Verification error" -/
  | verificationError
  /-- 422 "Unprocessable Entity" on mismatching password fields -/
  | passwordMismatch
  /-- 422 "Invalid token for email verification", raised by
  `get_email_from_token` on any token the codec rejects -/
  | emailTokenInvalid
  /-- HTTP 500 "An unexpected error occurred" -/
  | internalError
  deriving DecidableEq, Repr

namespace AuthService

/-- Modelled from the spec: `get_email_from_token` parses a presented
token expecting the email purpose and returns the subject; any codec
failure is collapsed into the single 422 `emailTokenInvalid` outcome
(the source catches `JWTError` uniformly). -/
def get_email_from_token (t : TokenStr) (now : Nat) : Except Err String :=
  match parse t .email now with
  | .ok c => .ok c.sub
  | .error _ => .error .emailTokenInvalid

end AuthService

/-- The `TokenModel` response schema (`src/schemas.py`). -/
structure TokenModel where
  access_token : TokenStr
  refresh_token : TokenStr
  token_type : String
  deriving DecidableEq, Repr

namespace Routes

/-- `signup` (`src/routes/auth.py` lines 62-75): reject 409 if a row
with that email exists; otherwise hash the password, persist the user
and return it with the confirmation detail message (the confirmation
mail is a background task outside the state model). -/
def signup (body : UserModel) (now : Nat) (db : DB) :
    Except Err (User × String) × DB :=
  match Repository.get_user_by_email body.email db with
  | some _ => (.error .duplicateEmail, db)
  | none =>
    let hashed := AuthService.get_password_hash body.password
    let r := Repository.create_user { body with password := hashed } now db
    (.ok (r.1, "User successfully created. Check your email for confirmation."),
     r.2)

/-- `login` (`src/routes/auth.py` lines 90-111): unknown email → 401;
unconfirmed → 401 (before the password is ever verified); bad password
→ 401; otherwise issue an access and a refresh token, overwrite the
stored refresh token and return both with type `bearer`. -/
def login (email pwd : String) (now : Nat) (db : DB) :
    Except Err TokenModel × DB :=
  match Repository.get_user_by_email email db with
  | none => (.error .unknownUser, db)
  | some user =>
    if user.confirmed = false then (.error .emailNotConfirmed, db)
    else if AuthService.verify_password pwd user.password = false then
      (.error .badPassword, db)
    else
      let access := AuthService.create_access_token email now
      let refresh := AuthService.create_refresh_token email now
      (.ok { access_token := access, refresh_token := refresh,
             token_type := "bearer" },
       Repository.update_token email (some refresh) db)

/-- `refresh_token` (`src/routes/auth.py` lines 114-145): decode the
bearer token expecting the refresh purpose (any codec failure is the
401 `invalidRefreshToken` outcome); load the user by the subject email
(`None` would crash on the attribute access — `internalError`);
if the stored token differs from the presented one, clear it and
reject; otherwise issue a fresh pair and overwrite the stored token. -/
def refresh_token (token : TokenStr) (now : Nat) (db : DB) :
    Except Err TokenModel × DB :=
  match AuthService.decode_refresh_token token now with
  | .error _ => (.error .invalidRefreshToken, db)
  | .ok email =>
    match Repository.get_user_by_email email db with
    | none => (.error .internalError, db)
    | some user =>
      if user.refresh_token ≠ some token then
        (.error .invalidRefreshToken, Repository.update_token email none db)
      else
        let access := AuthService.create_access_token email now
        let refresh := AuthService.create_refresh_token email now
        (.ok { access_token := access, refresh_token := refresh,
               token_type := "bearer" },
         Repository.update_token email (some refresh) db)

/-- `confirmed_email` (`src/routes/auth.py` lines 148-170): derive the
email from the token (a codec failure propagates as the 422
`emailTokenInvalid`); no such user → 400 "Verification error"; already
confirmed → idempotent message, no state change; otherwise flip
`confirmed` to `True`. -/
def confirmed_email (token : TokenStr) (now : Nat) (db : DB) :
    Except Err String × DB :=
  match AuthService.get_email_from_token token now with
  | .error e => (.error e, db)
  | .ok email =>
    match Repository.get_user_by_email email db with
    | none => (.error .verificationError, db)
    | some user =>
      if user.confirmed then (.ok "Your email is already confirmed", db)
      else (.ok "Email confirmed", Repository.confirmed_email email db)

/-- `verify_by_email` (`src/routes/auth.py` lines 173-201): the source
reads `user.confirmed` before its `if user:` guard, so a request for an
email with no user row raises `AttributeError` on `None` — an HTTP 500,
modelled as `internalError`.  For an existing user the route returns an
acknowledgment either way (the mail dispatch is a background task
outside the state model). -/
def verify_by_email (email : String) (db : DB) : Except Err String × DB :=
  match Repository.get_user_by_email email db with
  | none => (.error .internalError, db)
  | some user =>
    if user.confirmed then (.ok "Your email is already confirmed", db)
    else (.ok "Check your email for confirmation.", db)

/-- `reset_password` (`src/routes/auth.py` lines 269-305): mismatching
password fields → 422, checked before any token handling; the remaining
body runs inside `try: ... except Exception: raise 500`, so a token the
codec rejects, or a subject email with no user row (an attribute error
inside `update_password`), surfaces as the generic 500 `internalError`;
otherwise the user's stored hash is replaced by the hash of the new
password. -/
def reset_password (token : TokenStr) (new_password confirm_password : String)
    (now : Nat) (db : DB) : Except Err String × DB :=
  if new_password ≠ confirm_password then (.error .passwordMismatch, db)
  else
    match AuthService.get_email_from_token token now with
    | .error _ => (.error .internalError, db)
    | .ok email =>
      let hashed := AuthService.get_password_hash new_password
      match Repository.get_user_by_email email db with
      | none => (.error .internalError, db)
      | some _ =>
        (.ok "Password reset successfully",
         Repository.update_password email hashed db)

end Routes

/-- A confirmed demo account whose stored digest is the hash of
"secret1"; used to evaluate the routes on concrete inputs. -/
def demoUser : User :=
  { id := 1, username := "alice1", email := "a@x.com",
    password := AuthService.get_password_hash "secret1", avatar := none,
    created_at := 0, refresh_token := none, confirmed := true }

/-- The same account before email confirmation. -/
def demoUnconfirmed : User := { demoUser with confirmed := false }

/-- The registration request for the demo account. -/
def demoBody : UserModel :=
  { username := "alice1", email := "a@x.com", password := "secret1" }

/-- Updating the row keyed by `email` with an email-preserving function
commutes with the lookup by that email. -/
theorem get_user_by_email_updateUser (email : String) (f : User → User)
    (hf : ∀ u, (f u).email = u.email) (db : DB) :
    Repository.get_user_by_email email (Repository.updateUser email f db)
      = (Repository.get_user_by_email email db).map f := by
  induction db with
  | nil => rfl
  | cons u l ih =>
    simp only [Repository.get_user_by_email, Repository.updateUser,
      List.map_cons, List.find?] at *
    by_cases h : u.email = email
    · simp [h, hf]
    · have hb : (u.email == email) = false := by simp [h]
      have hb2 : ((if (u.email == email) = true then f u else u).email == email)
          = false := by simp [hb, h]
      simp only [hb2]
      simp only [hb]
      exact ih

/-- Appending a fresh row with the sought email to a database in which
the lookup fails makes the lookup return that row. -/
theorem get_user_by_email_append_none (email : String) (db : DB) (nu : User)
    (h : Repository.get_user_by_email email db = none)
    (he : nu.email = email) :
    Repository.get_user_by_email email (db ++ [nu]) = some nu := by
  induction db with
  | nil => simp [Repository.get_user_by_email, List.find?, he]
  | cons u l ih =>
    simp only [Repository.get_user_by_email, List.find?, List.cons_append] at *
    cases hb : (u.email == email) with
    | true => simp [hb] at h
    | false => simp only [hb] at h ⊢; exact ih h

/-- `update_token` and the lookup by the same email. -/
theorem get_user_update_token (email : String) (tok : Option TokenStr) (db : DB) :
    Repository.get_user_by_email email (Repository.update_token email tok db)
      = (Repository.get_user_by_email email db).map
          (fun u => { u with refresh_token := tok }) :=
  get_user_by_email_updateUser email (fun u => { u with refresh_token := tok })
    (fun _ => rfl) db

/-- `update_password` and the lookup by the same email. -/
theorem get_user_update_password (email hashed : String) (db : DB) :
    Repository.get_user_by_email email (Repository.update_password email hashed db)
      = (Repository.get_user_by_email email db).map
          (fun u => { u with password := hashed }) :=
  get_user_by_email_updateUser email (fun u => { u with password := hashed })
    (fun _ => rfl) db

/-- `confirmed_email` and the lookup by the same email. -/
theorem get_user_confirmed_email (email : String) (db : DB) :
    Repository.get_user_by_email email (Repository.confirmed_email email db)
      = (Repository.get_user_by_email email db).map
          (fun u => { u with confirmed := true }) :=
  get_user_by_email_updateUser email (fun u => { u with confirmed := true })
    (fun _ => rfl) db

/-- A refresh token issued at `t` decodes to its subject at any time
before its expiry. -/
theorem decode_refresh_issued (email : String) (t now : Nat)
    (h : now < t + AuthService.REFRESH_TOKEN_TTL) :
    AuthService.decode_refresh_token (AuthService.create_refresh_token email t)
      now = .ok email := by
  have hx : ¬ t + AuthService.REFRESH_TOKEN_TTL ≤ now := by omega
  simp [AuthService.decode_refresh_token, AuthService.parse,
    AuthService.create_refresh_token, AuthService.issue, Except.map, hx]

/-- An email token issued at `t` yields its subject at any time before
its expiry. -/
theorem parse_email_issued (email : String) (t now : Nat)
    (h : now < t + AuthService.EMAIL_TOKEN_TTL) :
    AuthService.get_email_from_token (AuthService.create_email_token email t)
      now = .ok email := by
  have hx : ¬ t + AuthService.EMAIL_TOKEN_TTL ≤ now := by omega
  simp [AuthService.get_email_from_token, AuthService.parse,
    AuthService.create_email_token, AuthService.issue, hx]

/-- Refresh tokens issued at distinct times differ (their `issued_at`
claims differ, so the signed strings differ). -/
theorem refresh_tokens_distinct (email : String) (t1 t2 : Nat) (h : t1 ≠ t2) :
    AuthService.create_refresh_token email t1 ≠
      AuthService.create_refresh_token email t2 := by
  simp [AuthService.create_refresh_token, AuthService.issue, h]

/-- Claim C1: refresh-token rotation.  After a successful login the
user's stored refresh token equals exactly the returned one; a refresh
with that token succeeds, stores exactly the newly issued token, which
differs from the earlier one (distinct issuance times); and presenting
the earlier token again, still before its signed expiry, is rejected
with `InvalidRefreshToken`. -/
theorem C1_rotation (db : DB) (email pwd : String) (t1 t2 t3 : Nat) (u : User)
    (hu : Repository.get_user_by_email email db = some u)
    (hc : u.confirmed = true)
    (hv : AuthService.verify_password pwd u.password = true)
    (h12 : t1 < t2)
    (h2exp : t2 < t1 + AuthService.REFRESH_TOKEN_TTL)
    (h3exp : t3 < t1 + AuthService.REFRESH_TOKEN_TTL) :
    (Routes.login email pwd t1 db).1 =
      .ok { access_token := AuthService.create_access_token email t1,
            refresh_token := AuthService.create_refresh_token email t1,
            token_type := "bearer" } ∧
    Repository.get_user_by_email email (Routes.login email pwd t1 db).2 =
      some { u with
             refresh_token := some (AuthService.create_refresh_token email t1) } ∧
    (Routes.refresh_token (AuthService.create_refresh_token email t1) t2
        (Routes.login email pwd t1 db).2).1 =
      .ok { access_token := AuthService.create_access_token email t2,
            refresh_token := AuthService.create_refresh_token email t2,
            token_type := "bearer" } ∧
    Repository.get_user_by_email email
        (Routes.refresh_token (AuthService.create_refresh_token email t1) t2
          (Routes.login email pwd t1 db).2).2 =
      some { u with
             refresh_token := some (AuthService.create_refresh_token email t2) } ∧
    AuthService.create_refresh_token email t1 ≠
      AuthService.create_refresh_token email t2 ∧
    (Routes.refresh_token (AuthService.create_refresh_token email t1) t3
        (Routes.refresh_token (AuthService.create_refresh_token email t1) t2
          (Routes.login email pwd t1 db).2).2).1 =
      .error .invalidRefreshToken := by
  have hL : Routes.login email pwd t1 db =
      (.ok { access_token := AuthService.create_access_token email t1,
             refresh_token := AuthService.create_refresh_token email t1,
             token_type := "bearer" },
       Repository.update_token email
         (some (AuthService.create_refresh_token email t1)) db) := by
    simp [Routes.login, hu, hc, hv]
  have hst1 : Repository.get_user_by_email email
      (Repository.update_token email
        (some (AuthService.create_refresh_token email t1)) db) =
      some { u with
             refresh_token := some (AuthService.create_refresh_token email t1) } := by
    rw [get_user_update_token, hu]; rfl
  have hd2 := decode_refresh_issued email t1 t2 h2exp
  have hR1 : Routes.refresh_token (AuthService.create_refresh_token email t1) t2
      (Repository.update_token email
        (some (AuthService.create_refresh_token email t1)) db) =
      (.ok { access_token := AuthService.create_access_token email t2,
             refresh_token := AuthService.create_refresh_token email t2,
             token_type := "bearer" },
       Repository.update_token email
         (some (AuthService.create_refresh_token email t2))
         (Repository.update_token email
           (some (AuthService.create_refresh_token email t1)) db)) := by
    simp only [Routes.refresh_token, hd2, hst1]
    simp
  have hst2 : Repository.get_user_by_email email
      (Repository.update_token email
        (some (AuthService.create_refresh_token email t2))
        (Repository.update_token email
          (some (AuthService.create_refresh_token email t1)) db)) =
      some { u with
             refresh_token := some (AuthService.create_refresh_token email t2) } := by
    rw [get_user_update_token, hst1]; rfl
  have hne := refresh_tokens_distinct email t1 t2 (by omega)
  have hd3 := decode_refresh_issued email t1 t3 h3exp
  have hR2 : (Routes.refresh_token (AuthService.create_refresh_token email t1) t3
      (Repository.update_token email
        (some (AuthService.create_refresh_token email t2))
        (Repository.update_token email
          (some (AuthService.create_refresh_token email t1)) db))).1 =
      .error .invalidRefreshToken := by
    simp only [Routes.refresh_token, hd3, hst2]
    have hcond : some (AuthService.create_refresh_token email t2) ≠
        some (AuthService.create_refresh_token email t1) := by
      simp only [ne_eq, Option.some.injEq]
      exact fun h => hne h.symm
    simp [hcond]
  have hL2 : (Routes.login email pwd t1 db).2 =
      Repository.update_token email
        (some (AuthService.create_refresh_token email t1)) db := by rw [hL]
  exact ⟨by rw [hL], by rw [hL2]; exact hst1, by rw [hL2, hR1],
         by rw [hL2, hR1]; exact hst2, hne, by rw [hL2, hR1]; exact hR2⟩

/-- Witness for C1 at a concrete database and times 0, 1, 2. -/
theorem C1_rotation_witness :
    (Routes.login "a@x.com" "secret1" 0 [demoUser]).1 =
      .ok { access_token := AuthService.create_access_token "a@x.com" 0,
            refresh_token := AuthService.create_refresh_token "a@x.com" 0,
            token_type := "bearer" } ∧
    AuthService.create_refresh_token "a@x.com" 0 ≠
      AuthService.create_refresh_token "a@x.com" 1 ∧
    (Routes.refresh_token (AuthService.create_refresh_token "a@x.com" 0) 2
        (Routes.refresh_token (AuthService.create_refresh_token "a@x.com" 0) 1
          (Routes.login "a@x.com" "secret1" 0 [demoUser]).2).2).1 =
      .error .invalidRefreshToken := by
  have h := C1_rotation [demoUser] "a@x.com" "secret1" 0 1 2 demoUser
    (by decide) (by decide) (by decide) (by decide) (by decide) (by decide)
  exact ⟨h.1, h.2.2.2.2.1, h.2.2.2.2.2⟩

/-- Claim C2: a decodable refresh token for an existing user that
differs from the user's stored refresh token makes the refresh
operation clear the stored token (forcing full re-login) and fail with
`InvalidRefreshToken`. -/
theorem C2_refresh_reuse_revokes (tok : TokenStr) (c : Claims) (now : Nat)
    (db : DB) (u : User)
    (hs : tok.sigOk = true) (hb : tok.body = some c)
    (hp : c.purpose = .refresh) (hexp : now < c.expires_at)
    (hu : Repository.get_user_by_email c.sub db = some u)
    (hne : u.refresh_token ≠ some tok) :
    Routes.refresh_token tok now db =
      (.error .invalidRefreshToken, Repository.update_token c.sub none db) ∧
    Repository.get_user_by_email c.sub (Routes.refresh_token tok now db).2 =
      some { u with refresh_token := none } := by
  have hx : ¬ c.expires_at ≤ now := by omega
  have h1 : Routes.refresh_token tok now db =
      (.error .invalidRefreshToken, Repository.update_token c.sub none db) := by
    simp [Routes.refresh_token, AuthService.decode_refresh_token,
      AuthService.parse, Except.map, hs, hb, hp, hx, hu, hne]
  refine ⟨h1, ?_⟩
  rw [h1]
  simp [get_user_update_token, hu]

/-- Witness for C2: the demo user stores no refresh token, so a freshly
issued refresh token mismatches and is rejected, clearing the column. -/
theorem C2_refresh_reuse_revokes_witness :
    Routes.refresh_token (AuthService.create_refresh_token "a@x.com" 0) 1 [demoUser]
      = (.error .invalidRefreshToken,
         Repository.update_token "a@x.com" none [demoUser]) ∧
    Repository.get_user_by_email "a@x.com"
      (Routes.refresh_token (AuthService.create_refresh_token "a@x.com" 0) 1
        [demoUser]).2
      = some { demoUser with refresh_token := none } :=
  C2_refresh_reuse_revokes (AuthService.create_refresh_token "a@x.com" 0)
    { sub := "a@x.com", purpose := .refresh, issued_at := 0,
      expires_at := 0 + 7 * 24 * 3600 }
    1 [demoUser] demoUser rfl rfl rfl (by decide) (by decide) (by decide)

/-- Claim C3, counterexample: the claim asserts that a token issued for
email confirmation is not accepted by the reset-password operation and
vice versa.  On this code both mails carry the same
`create_email_token` token, so the confirmation token is accepted by
reset-password (and the reset token by confirm-email) — the parse
succeeds instead of failing with `WrongPurpose`. -/
theorem C3_counterexample :
    Routes.reset_password (send_verification_token "a@x.com" 0) "newpass1"
        "newpass1" 1 [demoUser] =
      (.ok "Password reset successfully",
       Repository.update_password "a@x.com"
         (AuthService.get_password_hash "newpass1") [demoUser]) ∧
    Routes.confirmed_email (send_reset_token "a@x.com" 0) 1 [demoUnconfirmed] =
      (.ok "Email confirmed",
       Repository.confirmed_email "a@x.com" [demoUnconfirmed]) :=
  ⟨rfl, rfl⟩

/-- Claim C3 as amended: a well-formed, signed, unexpired token whose
purpose differs from the parse's expected purpose always fails with
`WrongPurpose` (never `Malformed`, never success); but the email
confirmation and password reset flows share one and the same token
purpose — the token mailed for confirmation is identical to the token
mailed for reset — so neither rejects the other's token. -/
theorem C3_purpose_check_amended :
    (∀ (e : String) (t : Nat),
      send_verification_token e t = send_reset_token e t) ∧
    (∀ (tok : TokenStr) (c : Claims) (now : Nat) (p : Purpose),
      tok.sigOk = true → tok.body = some c → now < c.expires_at →
      c.purpose ≠ p → AuthService.parse tok p now = .error .WrongPurpose) := by
  refine ⟨fun e t => rfl, fun tok c now p hs hb hexp hp => ?_⟩
  have hx : ¬ c.expires_at ≤ now := by omega
  simp [AuthService.parse, hs, hb, hx, hp]

/-- Witness for the amended C3: the two mailed tokens coincide, and an
access token parsed expecting the refresh purpose fails with
`WrongPurpose`. -/
theorem C3_purpose_check_amended_witness :
    send_verification_token "a@x.com" 0 = send_reset_token "a@x.com" 0 ∧
    AuthService.parse (AuthService.create_access_token "a@x.com" 0) .refresh 1 =
      .error .WrongPurpose :=
  ⟨C3_purpose_check_amended.1 "a@x.com" 0,
   C3_purpose_check_amended.2 (AuthService.create_access_token "a@x.com" 0)
     { sub := "a@x.com", purpose := .access, issued_at := 0,
       expires_at := 0 + 15 * 60 }
     1 .refresh rfl rfl (by decide) (by decide)⟩

/-- Claim C4: login outcome order — unknown email → `UnknownUser`;
existing but unconfirmed → `EmailNotConfirmed` for every submitted
password (the password is never verified); confirmed with failing
verification → `BadPassword`; otherwise success with an access token, a
refresh token and the token type, the stored refresh token being
overwritten. -/
theorem C4_login_outcomes (email pwd : String) (now : Nat) (db : DB) :
    (Repository.get_user_by_email email db = none →
      Routes.login email pwd now db = (.error .unknownUser, db)) ∧
    (∀ u, Repository.get_user_by_email email db = some u → u.confirmed = false →
      Routes.login email pwd now db = (.error .emailNotConfirmed, db)) ∧
    (∀ u, Repository.get_user_by_email email db = some u → u.confirmed = true →
      AuthService.verify_password pwd u.password = false →
      Routes.login email pwd now db = (.error .badPassword, db)) ∧
    (∀ u, Repository.get_user_by_email email db = some u → u.confirmed = true →
      AuthService.verify_password pwd u.password = true →
      Routes.login email pwd now db =
        (.ok { access_token := AuthService.create_access_token email now,
               refresh_token := AuthService.create_refresh_token email now,
               token_type := "bearer" },
         Repository.update_token email
           (some (AuthService.create_refresh_token email now)) db)) := by
  refine ⟨fun h => by simp [Routes.login, h],
         fun u hu hc => by simp [Routes.login, hu, hc],
         fun u hu hc hv => by simp [Routes.login, hu, hc, hv],
         fun u hu hc hv => by simp [Routes.login, hu, hc, hv]⟩

/-- Witness for C4: all four login outcomes on concrete databases; the
`EmailNotConfirmed` instance submits the correct password. -/
theorem C4_login_outcomes_witness :
    Routes.login "a@x.com" "secret1" 0 [] = (.error .unknownUser, []) ∧
    Routes.login "a@x.com" "secret1" 0 [demoUnconfirmed]
      = (.error .emailNotConfirmed, [demoUnconfirmed]) ∧
    Routes.login "a@x.com" "wrongpw" 0 [demoUser]
      = (.error .badPassword, [demoUser]) ∧
    Routes.login "a@x.com" "secret1" 0 [demoUser]
      = (.ok { access_token := AuthService.create_access_token "a@x.com" 0,
               refresh_token := AuthService.create_refresh_token "a@x.com" 0,
               token_type := "bearer" },
         Repository.update_token "a@x.com"
           (some (AuthService.create_refresh_token "a@x.com" 0)) [demoUser]) :=
  ⟨(C4_login_outcomes "a@x.com" "secret1" 0 []).1 (by decide),
   (C4_login_outcomes "a@x.com" "secret1" 0 [demoUnconfirmed]).2.1
     demoUnconfirmed (by decide) (by decide),
   (C4_login_outcomes "a@x.com" "wrongpw" 0 [demoUser]).2.2.1
     demoUser (by decide) (by decide) (by decide),
   (C4_login_outcomes "a@x.com" "secret1" 0 [demoUser]).2.2.2
     demoUser (by decide) (by decide) (by decide)⟩

/-- Claim C5: registration with an email that already exists (confirmed
or not) fails with `DuplicateEmail` and leaves the database unchanged;
otherwise a row is persisted whose `password` holds the hash of the
submitted password and whose `confirmed` flag is `false`. -/
theorem C5_signup_outcomes (body : UserModel) (now : Nat) (db : DB) :
    (∀ u, Repository.get_user_by_email body.email db = some u →
      Routes.signup body now db = (.error .duplicateEmail, db)) ∧
    (Repository.get_user_by_email body.email db = none →
      Routes.signup body now db =
        (.ok ((Repository.create_user
                { body with password := AuthService.get_password_hash body.password }
                now db).1,
              "User successfully created. Check your email for confirmation."),
         db ++ [(Repository.create_user
                  { body with password := AuthService.get_password_hash body.password }
                  now db).1]) ∧
      (Repository.create_user
        { body with password := AuthService.get_password_hash body.password }
        now db).1.password = AuthService.get_password_hash body.password ∧
      (Repository.create_user
        { body with password := AuthService.get_password_hash body.password }
        now db).1.confirmed = false ∧
      Repository.get_user_by_email body.email
        (Routes.signup body now db).2 =
        some (Repository.create_user
               { body with password := AuthService.get_password_hash body.password }
               now db).1) := by
  constructor
  · intro u hu
    simp [Routes.signup, hu]
  · intro h
    refine ⟨by simp [Routes.signup, h, Repository.create_user], rfl, rfl, ?_⟩
    have h2 : (Routes.signup body now db).2 =
        db ++ [(Repository.create_user
                 { body with password := AuthService.get_password_hash body.password }
                 now db).1] := by
      simp [Routes.signup, h, Repository.create_user]
    rw [h2]
    exact get_user_by_email_append_none body.email db _ h rfl

/-- Witness for C5: duplicate registration against a confirmed and
against an unconfirmed existing account, and a fresh registration whose
persisted row carries the hash and `confirmed = false`. -/
theorem C5_signup_outcomes_witness :
    Routes.signup demoBody 0 [demoUser] = (.error .duplicateEmail, [demoUser]) ∧
    Routes.signup demoBody 0 [demoUnconfirmed]
      = (.error .duplicateEmail, [demoUnconfirmed]) ∧
    (Repository.create_user
      { demoBody with password := AuthService.get_password_hash demoBody.password }
      0 []).1.password = AuthService.get_password_hash demoBody.password ∧
    (Repository.create_user
      { demoBody with password := AuthService.get_password_hash demoBody.password }
      0 []).1.confirmed = false ∧
    Repository.get_user_by_email demoBody.email (Routes.signup demoBody 0 []).2
      = some (Repository.create_user
          { demoBody with password := AuthService.get_password_hash demoBody.password }
          0 []).1 :=
  ⟨(C5_signup_outcomes demoBody 0 [demoUser]).1 demoUser (by decide),
   (C5_signup_outcomes demoBody 0 [demoUnconfirmed]).1 demoUnconfirmed (by decide),
   ((C5_signup_outcomes demoBody 0 []).2 (by decide)).2.1,
   ((C5_signup_outcomes demoBody 0 []).2 (by decide)).2.2.1,
   ((C5_signup_outcomes demoBody 0 []).2 (by decide)).2.2.2⟩

/-- Claim C6, counterexample: the claim asserts that a reset-password
call with matching fields and an invalid token fails with
`VerificationError`; on this code the route's blanket
`except Exception` converts the codec's rejection into the generic
HTTP 500 outcome instead. -/
theorem C6_counterexample :
    Routes.reset_password { body := none, sigOk := false } "newpass1" "newpass1"
        0 [demoUser] = (.error .internalError, [demoUser]) ∧
    Err.internalError ≠ Err.verificationError :=
  ⟨rfl, by decide⟩

/-- Claim C6 as amended: mismatching new/confirm password fields fail
with `PasswordMismatch`, checked before any token handling; matching
fields with a token the codec rejects fail with the generic internal
failure (HTTP 500), distinct from `PasswordMismatch`; and success,
`PasswordMismatch` and the internal failure are the only outcomes of
reset-password. -/
theorem C6_reset_failures (tok : TokenStr) (np cp : String) (now : Nat) (db : DB) :
    (np ≠ cp → Routes.reset_password tok np cp now db =
      (.error .passwordMismatch, db)) ∧
    (np = cp →
      AuthService.get_email_from_token tok now = .error .emailTokenInvalid →
      Routes.reset_password tok np cp now db = (.error .internalError, db)) ∧
    (∀ r db2, Routes.reset_password tok np cp now db = (r, db2) →
      r = .ok "Password reset successfully" ∨
      r = .error .passwordMismatch ∨ r = .error .internalError) := by
  refine ⟨fun h => by simp [Routes.reset_password, h],
          fun h hget => by simp [Routes.reset_password, h, hget], ?_⟩
  intro r db2 h
  unfold Routes.reset_password at h
  split at h
  · cases h; right; left; rfl
  · split at h
    · cases h; right; right; rfl
    · split at h
      · cases h; right; right; rfl
      · cases h; left; rfl

/-- Witness for the amended C6: mismatching fields are rejected with
`PasswordMismatch` even when the token is invalid, and matching fields
with an invalid token yield the internal failure. -/
theorem C6_reset_failures_witness :
    Routes.reset_password { body := none, sigOk := false } "pw1" "pw2" 0
        [demoUser] = (.error .passwordMismatch, [demoUser]) ∧
    Routes.reset_password { body := none, sigOk := false } "pw1" "pw1" 0
        [demoUser] = (.error .internalError, [demoUser]) :=
  ⟨(C6_reset_failures { body := none, sigOk := false } "pw1" "pw2" 0
      [demoUser]).1 (by decide),
   (C6_reset_failures { body := none, sigOk := false } "pw1" "pw1" 0
      [demoUser]).2.1 rfl rfl⟩

/-- Claim C7: the request-confirmation-resend operation is claimed to
return an accepted acknowledgment for every email.  The code reads
`user.confirmed` before its `if user:` guard, so an email with no user
row raises `AttributeError` on `None` — an HTTP 500 — while both
existing-user cases do acknowledge.  (The sibling `forgot_password`
route performs the same lookup with the guard in the right place.) -/
theorem C7_unknown_email_crash :
    Routes.verify_by_email "ghost@x.com" [demoUser] =
      (.error .internalError, [demoUser]) ∧
    Routes.verify_by_email "a@x.com" [demoUser] =
      (.ok "Your email is already confirmed", [demoUser]) ∧
    Routes.verify_by_email "a@x.com" [demoUnconfirmed] =
      (.ok "Check your email for confirmation.", [demoUnconfirmed]) :=
  ⟨rfl, rfl, rfl⟩

/-- Claim C8: confirm-email is idempotent — with a still-valid token
whose subject user is already confirmed it returns the "already
confirmed" result, also on a repeated call; a token whose subject
matches no user fails with `VerificationError`; otherwise it flips the
user's `confirmed` flag to `true`, after which a repeated call returns
the idempotent result. -/
theorem C8_confirm_idempotent (tok : TokenStr) (c : Claims) (now : Nat) (db : DB)
    (hs : tok.sigOk = true) (hb : tok.body = some c) (hp : c.purpose = .email)
    (hexp : now < c.expires_at) :
    (Repository.get_user_by_email c.sub db = none →
      Routes.confirmed_email tok now db = (.error .verificationError, db)) ∧
    (∀ u, Repository.get_user_by_email c.sub db = some u → u.confirmed = true →
      Routes.confirmed_email tok now db =
        (.ok "Your email is already confirmed", db) ∧
      Routes.confirmed_email tok now
          (Routes.confirmed_email tok now db).2 =
        (.ok "Your email is already confirmed", db)) ∧
    (∀ u, Repository.get_user_by_email c.sub db = some u → u.confirmed = false →
      Routes.confirmed_email tok now db =
        (.ok "Email confirmed", Repository.confirmed_email c.sub db) ∧
      Repository.get_user_by_email c.sub (Repository.confirmed_email c.sub db) =
        some { u with confirmed := true } ∧
      Routes.confirmed_email tok now (Repository.confirmed_email c.sub db) =
        (.ok "Your email is already confirmed",
         Repository.confirmed_email c.sub db)) := by
  have hx : ¬ c.expires_at ≤ now := by omega
  have hget : AuthService.get_email_from_token tok now = .ok c.sub := by
    simp [AuthService.get_email_from_token, AuthService.parse, hs, hb, hp, hx]
  refine ⟨fun h => by simp [Routes.confirmed_email, hget, h], ?_, ?_⟩
  · intro u hu hc2
    have h1 : Routes.confirmed_email tok now db =
        (.ok "Your email is already confirmed", db) := by
      simp [Routes.confirmed_email, hget, hu, hc2]
    exact ⟨h1, by rw [h1]; exact h1⟩
  · intro u hu hc2
    have hst : Repository.get_user_by_email c.sub
        (Repository.confirmed_email c.sub db) =
        some { u with confirmed := true } := by
      rw [get_user_confirmed_email, hu]; rfl
    refine ⟨by simp [Routes.confirmed_email, hget, hu, hc2], hst, ?_⟩
    simp [Routes.confirmed_email, hget, hst]

/-- Witness for C8: unknown subject, already-confirmed subject,
unconfirmed subject and the repeated call after the flip, all on
concrete databases with a token issued at time 0 and parsed at 1. -/
theorem C8_confirm_idempotent_witness :
    Routes.confirmed_email (AuthService.create_email_token "ghost@x.com" 0) 1 []
      = (.error .verificationError, []) ∧
    Routes.confirmed_email (AuthService.create_email_token "a@x.com" 0) 1
        [demoUser] = (.ok "Your email is already confirmed", [demoUser]) ∧
    Routes.confirmed_email (AuthService.create_email_token "a@x.com" 0) 1
        [demoUnconfirmed] =
      (.ok "Email confirmed",
       Repository.confirmed_email "a@x.com" [demoUnconfirmed]) ∧
    Routes.confirmed_email (AuthService.create_email_token "a@x.com" 0) 1
        (Repository.confirmed_email "a@x.com" [demoUnconfirmed]) =
      (.ok "Your email is already confirmed",
       Repository.confirmed_email "a@x.com" [demoUnconfirmed]) := by
  refine ⟨(C8_confirm_idempotent (AuthService.create_email_token "ghost@x.com" 0)
      { sub := "ghost@x.com", purpose := .email, issued_at := 0,
        expires_at := 0 + 24 * 3600 } 1 [] rfl rfl rfl (by decide)).1 (by decide),
    ((C8_confirm_idempotent (AuthService.create_email_token "a@x.com" 0)
      { sub := "a@x.com", purpose := .email, issued_at := 0,
        expires_at := 0 + 24 * 3600 } 1 [demoUser] rfl rfl rfl (by decide)).2.1
      demoUser (by decide) (by decide)).1,
    ((C8_confirm_idempotent (AuthService.create_email_token "a@x.com" 0)
      { sub := "a@x.com", purpose := .email, issued_at := 0,
        expires_at := 0 + 24 * 3600 } 1 [demoUnconfirmed] rfl rfl rfl
      (by decide)).2.2 demoUnconfirmed (by decide) (by decide)).1,
    ((C8_confirm_idempotent (AuthService.create_email_token "a@x.com" 0)
      { sub := "a@x.com", purpose := .email, issued_at := 0,
        expires_at := 0 + 24 * 3600 } 1 [demoUnconfirmed] rfl rfl rfl
      (by decide)).2.2 demoUnconfirmed (by decide) (by decide)).2.2⟩

/-- Claim C9: the reset token is not single-use — a reset token
accepted by a successful reset-password call is accepted again by a
second call with matching fields, as long as it has not reached its
natural expiry. -/
theorem C9_reset_token_reusable (tok : TokenStr) (c : Claims) (p : String)
    (t1 t2 : Nat) (db : DB) (u : User)
    (hs : tok.sigOk = true) (hb : tok.body = some c) (hp : c.purpose = .email)
    (h1 : t1 < c.expires_at) (h2 : t2 < c.expires_at)
    (hu : Repository.get_user_by_email c.sub db = some u) :
    Routes.reset_password tok p p t1 db =
      (.ok "Password reset successfully",
       Repository.update_password c.sub (AuthService.get_password_hash p) db) ∧
    Routes.reset_password tok p p t2 (Routes.reset_password tok p p t1 db).2 =
      (.ok "Password reset successfully",
       Repository.update_password c.sub (AuthService.get_password_hash p)
         (Routes.reset_password tok p p t1 db).2) := by
  have hx1 : ¬ c.expires_at ≤ t1 := by omega
  have hx2 : ¬ c.expires_at ≤ t2 := by omega
  have hget1 : AuthService.get_email_from_token tok t1 = .ok c.sub := by
    simp [AuthService.get_email_from_token, AuthService.parse, hs, hb, hp, hx1]
  have hget2 : AuthService.get_email_from_token tok t2 = .ok c.sub := by
    simp [AuthService.get_email_from_token, AuthService.parse, hs, hb, hp, hx2]
  have hr1 : Routes.reset_password tok p p t1 db =
      (.ok "Password reset successfully",
       Repository.update_password c.sub (AuthService.get_password_hash p) db) := by
    simp [Routes.reset_password, hget1, hu]
  have hst : Repository.get_user_by_email c.sub
      (Repository.update_password c.sub (AuthService.get_password_hash p) db) =
      some { u with password := AuthService.get_password_hash p } := by
    rw [get_user_update_password, hu]; rfl
  refine ⟨hr1, ?_⟩
  rw [hr1]
  simp [Routes.reset_password, hget2, hst]

/-- Witness for C9: the mailed reset token for the demo user is
accepted at time 1 and again at time 2. -/
theorem C9_reset_token_reusable_witness :
    Routes.reset_password (send_reset_token "a@x.com" 0) "newpass1" "newpass1"
        1 [demoUser] =
      (.ok "Password reset successfully",
       Repository.update_password "a@x.com"
         (AuthService.get_password_hash "newpass1") [demoUser]) ∧
    Routes.reset_password (send_reset_token "a@x.com" 0) "newpass1" "newpass1"
        2 (Routes.reset_password (send_reset_token "a@x.com" 0) "newpass1"
            "newpass1" 1 [demoUser]).2 =
      (.ok "Password reset successfully",
       Repository.update_password "a@x.com"
         (AuthService.get_password_hash "newpass1")
         (Routes.reset_password (send_reset_token "a@x.com" 0) "newpass1"
           "newpass1" 1 [demoUser]).2) :=
  C9_reset_token_reusable (send_reset_token "a@x.com" 0)
    { sub := "a@x.com", purpose := .email, issued_at := 0,
      expires_at := 0 + 24 * 3600 }
    "newpass1" 1 2 [demoUser] demoUser rfl rfl rfl (by decide) (by decide)
    (by decide)

/-- Claim C10: every failing reset-password call — mismatching fields,
rejected token, or a subject naming no user — leaves the database, and
in particular every stored password hash, unchanged. -/
theorem C10_reset_failure_atomic (tok : TokenStr) (np cp : String) (now : Nat)
    (db : DB) (e : Err) (db2 : DB)
    (h : Routes.reset_password tok np cp now db = (.error e, db2)) :
    db2 = db ∧
    db2.map (fun u => u.password) = db.map (fun u => u.password) := by
  have hdb : db2 = db := by
    unfold Routes.reset_password at h
    split at h
    · cases h; rfl
    · split at h
      · cases h; rfl
      · split at h
        · cases h; rfl
        · cases h
  exact ⟨hdb, by rw [hdb]⟩

/-- Witness for C10: a mismatching-fields failure on the demo database
leaves it unchanged. -/
theorem C10_reset_failure_atomic_witness :
    ([demoUser] : DB) = [demoUser] ∧
    ([demoUser] : DB).map (fun u => u.password) =
      ([demoUser] : DB).map (fun u => u.password) :=
  C10_reset_failure_atomic { body := none, sigOk := false } "pw1" "pw2" 0
    [demoUser] .passwordMismatch [demoUser] rfl
